import Mathlib

/-!
Verification of the ml5 convenience layer (KNNClassifier, CocoSsd object
detector, BodyPix segmenter, NeuralNetwork trainer) against its
natural-language specification.  JavaScript values and promise outcomes are
embedded shallowly: promises become `Except` outcomes, callbacks become a
Boolean "supplied" flag together with the value the callback would receive,
machine numbers become exact rationals, and the sprawling typeof/instanceof
argument sniffing becomes pattern matching over an inductive type of
JavaScript values.
-/

set_option autoImplicit false

namespace Ml5

/-- Error raised by a wrapped operation.  `noInput` is the thrown
"No input image provided" error of BodyPix segment; `typeError` is the
JavaScript TypeError raised by reading a property of null; `noExample` is
the KNN error “There is no example in any class”. -/
inductive JsErr where
  | noInput
  | typeError
  | noExample
  deriving DecidableEq, Repr

/-- Message text carried by each error, as it appears in the source. -/
def JsErr.message : JsErr → String
  | .noInput =>
      "No input image provided. If you want to classify a video, pass the video element in the constructor. "
  | .typeError => "TypeError: cannot read properties of null"
  | .noExample => "There is no example in any class"

/-- Outcome of a promise: resolved with a value or rejected with an error. -/
abbrev Outcome (α : Type) := Except JsErr α

/-- Modelled from the spec: the utility `src/utils/callcallback` is not under
`src/` (only its callers are).  The spec says every operation accepts
"either callbacks or promises": when a callback is supplied it is invoked
with the outcome of the promise, and the promise itself is returned
unchanged.  The returned pair is (promise outcome, value delivered to the
callback, `none` when no callback was supplied or it was never invoked). -/
def callCallback {α : Type} (promise : Outcome α) (cb : Bool) :
    Outcome α × Option (Outcome α) :=
  (promise, if cb then some promise else none)

/-! ## KNNClassifier (src/src/KNNClassifier/index.js)

The stored dataset of the wrapped `@tensorflow-models/knn-classifier` is
modelled as a list of (embedding vector, class index) pairs, and
`mapStringToIndex` as a list of strings indexed by position, exactly the
JavaScript array the source uses with `includes`, `push` and `indexOf`. -/

/-- An embedding vector, one stored example or one query input. -/
abbrev Vec := List ℚ

/-- State of a `KNN` instance: the stored labeled examples of the wrapped
classifier, and the label-to-index array `mapStringToIndex`. -/
structure KNNState where
  examples : List (Vec × ℕ)
  mapStringToIndex : List String
  deriving DecidableEq, Repr

/-- The freshly constructed classifier: no examples, empty label map. -/
def KNNState.init : KNNState := ⟨[], []⟩

/-- Label handling of `KNN.addExample` for a string label: if the label is
not yet in `mapStringToIndex` it is pushed and its class index is the new
last position, otherwise the class index is `indexOf` the label.  Returns
the updated map and the class index used. -/
def addLabel (map : List String) (label : String) : List String × ℕ :=
  if label ∈ map then (map, map.indexOf label)
  else (map ++ [label], map.length)

/-- `KNN.addExample` with a string label: resolve the label to a class
index through `mapStringToIndex`, then add the example to the wrapped
classifier dataset. -/
def KNNState.addExample (st : KNNState) (input : Vec) (label : String) :
    KNNState :=
  let p := addLabel st.mapStringToIndex label
  { examples := st.examples ++ [(input, p.2)], mapStringToIndex := p.1 }

/-- A sequence of `KNN.addExample` calls with string labels, in order. -/
def KNNState.addExamples (st : KNNState) (items : List (Vec × String)) :
    KNNState :=
  items.foldl (fun s p => s.addExample p.1 p.2) st

/-- The label map produced by folding `addLabel` over a list of labels. -/
def addLabels (m : List String) (ls : List String) : List String :=
  ls.foldl (fun acc l => (addLabel acc l).1) m

/-- The label map after adding the given labels to a fresh classifier. -/
def buildMap (ls : List String) : List String :=
  addLabels [] ls

/-- `KNN.clearAllLabels`: reset `mapStringToIndex` to the empty array and
clear all classes of the wrapped classifier. -/
def KNNState.clearAllLabels (_st : KNNState) : KNNState :=
  { examples := [], mapStringToIndex := [] }

/-- Number of classes holding at least one stored example, the value the
wrapped classifier reports as `getNumClasses()`. -/
def KNNState.numClasses (st : KNNState) : ℕ :=
  (st.examples.map Prod.snd).dedup.length

/-- Squared Euclidean distance between two embedding vectors. -/
def distSq (a b : Vec) : ℚ :=
  ((a.zip b).map fun p => (p.1 - p.2) * (p.1 - p.2)).sum

/-- Insert an example into a list kept sorted by distance to the query,
after all earlier examples at the same distance (stable). -/
def insertByDist (q : Vec) (e : Vec × ℕ) : List (Vec × ℕ) → List (Vec × ℕ)
  | [] => [e]
  | x :: xs =>
      if distSq q e.1 < distSq q x.1 then e :: x :: xs
      else x :: insertByDist q e xs

/-- The `k` stored examples closest to the query, ties resolved in favor of
earlier stored examples. -/
def kNearest (k : ℕ) (examples : List (Vec × ℕ)) (q : Vec) :
    List (Vec × ℕ) :=
  (examples.foldl (fun acc e => insertByDist q e acc) []).take k

/-- Majority vote: the class with the greatest number of votes, the
earliest such class in vote order on a tie. -/
def majorityVote (votes : List ℕ) : ℕ :=
  votes.foldl (fun best c => if votes.count best < votes.count c then c else best)
    (votes.headD 0)

/-- Modelled from the spec: `predictClass` of the externally supplied
`@tensorflow-models/knn-classifier` is not part of this repository.  The
glossary describes it as an "externally supplied algorithm that classifies
a new embedding vector by majority vote among its k closest stored labeled
examples". -/
def predictClass (examples : List (Vec × ℕ)) (q : Vec) (k : ℕ) : ℕ :=
  majorityVote ((kNearest k examples q).map Prod.snd)

/-- Result of a successful classification: the winning class index and the
label attached from `mapStringToIndex` when the map is non-empty and has an
entry at that index. -/
structure ClassifyResult where
  classIndex : ℕ
  label : Option String
  deriving DecidableEq, Repr

/-- `KNN.classifyInternal`: throw when no class holds an example, otherwise
ask the wrapped classifier for the majority-vote class of the `k` nearest
stored examples and attach the string label when one is mapped. -/
def KNNState.classifyInternal (st : KNNState) (input : Vec) (k : ℕ) :
    Outcome ClassifyResult :=
  if st.numClasses ≤ 0 then Except.error JsErr.noExample
  else
    let idx := predictClass st.examples input k
    let lbl :=
      if 0 < st.mapStringToIndex.length then st.mapStringToIndex.get? idx
      else none
    Except.ok { classIndex := idx, label := lbl }

/-- Second argument of `KNN.classify`: a number `k`, a callback function,
or nothing. -/
inductive KArg where
  | num (k : ℕ)
  | fn
  | nothing
  deriving DecidableEq, Repr

/-- The `k` used by `KNN.classify`: the number passed, else the default 3. -/
def KArg.kOf : KArg → ℕ
  | .num k => k
  | _ => 3

/-- Whether a callback ends up supplied to `callCallback` in
`KNN.classify`: either the second argument is a function or a third
argument callback was given. -/
def KArg.cbOf : KArg → Bool → Bool
  | .fn, _ => true
  | _, cb => cb

/-- `KNN.classify`: pick `k` (default 3) and the callback from the
arguments, classify, and route the outcome through `callCallback`.  The
returned state is the state after the call. -/
def KNNState.classify (st : KNNState) (input : Vec) (karg : KArg)
    (cb : Bool) :
    KNNState × (Outcome ClassifyResult × Option (Outcome ClassifyResult)) :=
  (st, callCallback (st.classifyInternal input karg.kOf) (karg.cbOf cb))

/-! ## CocoSsd object detector (src/src/ObjectDetector/CocoSsd/index.js)

The underlying `@tensorflow-models/coco-ssd` model produces predictions
with a class string, a score, and a bbox array `[x, y, width, height]`;
`detect` reshapes each into the ml5 format, dividing the bbox entries by
the width and height of the subject. -/

/-- One prediction of the underlying detector model: class string, score,
and the four bbox entries. -/
structure Prediction where
  cls : String
  score : ℚ
  bbox0 : ℚ
  bbox1 : ℚ
  bbox2 : ℚ
  bbox3 : ℚ
  deriving DecidableEq, Repr

/-- The subject of the detection, of which only width and height are read. -/
structure Subject where
  width : ℚ
  height : ℚ
  deriving DecidableEq, Repr

/-- One formatted prediction as pushed by the loop in `CocoSsd.detect`. -/
structure FormattedPrediction where
  label : String
  confidence : ℚ
  x : ℚ
  y : ℚ
  w : ℚ
  h : ℚ
  deriving DecidableEq, Repr

/-- The loop body of `CocoSsd.detect`: reshape the raw predictions, in
order, into labeled, normalized boxes. -/
def formatPredictions (predictions : List Prediction) (subject : Subject) :
    List FormattedPrediction :=
  predictions.map fun prediction =>
    { label := prediction.cls
      confidence := prediction.score
      x := prediction.bbox0 / subject.width
      y := prediction.bbox1 / subject.height
      w := prediction.bbox2 / subject.width
      h := prediction.bbox3 / subject.height }

/-- `CocoSsd.detect`, given the predictions the loaded model resolves with:
format them and route the outcome through `callCallback`. -/
def CocoSsd.detect (predictions : List Prediction) (subject : Subject)
    (cb : Bool) :
    Outcome (List FormattedPrediction) × Option (Outcome (List FormattedPrediction)) :=
  callCallback (Except.ok (formatPredictions predictions subject)) cb

/-! ## BodyPix (source embedded in src/docs/reference/unet.md)

JavaScript values reaching the argument-sniffing cascades of `segment` and
the `bodyPix` factory are modelled by an inductive type: the four accepted
DOM classes, functions, null, undefined, numbers, strings, Booleans, and
plain objects with optional `elt` and `canvas` properties (the shape the
p5.js wrappers expose). -/

/-- The value of the `elt` or `canvas` property of a plain object, as
distinguished by the instanceof tests of the cascade: one of the four DOM
classes, an absent property (undefined), or any other JavaScript value.
Property reads on a genuine object never throw and non-DOM values all fail
every instanceof test identically, so `other` is their faithful quotient. -/
inductive JsProp where
  | image
  | canvas
  | videoElt
  | imageData
  | absent
  | other
  deriving DecidableEq, Repr

/-- A JavaScript value as distinguished by the typeof/instanceof cascade. -/
inductive JsVal where
  | func
  | image
  | canvas
  | videoElt
  | imageData
  | jsNull
  | undefined
  | num (q : ℚ)
  | str (s : String)
  | bool (b : Bool)
  | obj (elt : JsProp) (cnv : JsProp)
  deriving DecidableEq, Repr

/-- Whether `v instanceof HTMLVideoElement` holds. -/
def JsVal.isVideoElt : JsVal → Bool
  | .videoElt => true
  | _ => false

/-- The DOM element a usable wrapper property denotes, as a `JsVal`. -/
def JsProp.toVal : JsProp → JsVal
  | .image => .image
  | .canvas => .canvas
  | .videoElt => .videoElt
  | .imageData => .imageData
  | .absent => .undefined
  | .other => .undefined

/-- The image-argument cascade shared by `BodyPix.segment` and
`BodyPix.segmentWithParts`: pick the image to segment from the first
argument, falling back to the constructor video, and throw the
"No input image provided" error for unsupported input when no constructor
video is available.  Reading `.elt` of null (which JavaScript reaches
because `typeof null` is the string "object") raises a TypeError. -/
def sniffImage (optionsOrCallback : JsVal) (video : JsVal) :
    Outcome JsVal :=
  match optionsOrCallback with
  | .func => Except.ok video
  | .image => Except.ok .image
  | .canvas => Except.ok .canvas
  | .videoElt => Except.ok .videoElt
  | .imageData => Except.ok .imageData
  | .jsNull => Except.error JsErr.typeError
  | .obj elt cnv =>
      if elt = .image ∨ elt = .canvas ∨ elt = .imageData then
        Except.ok elt.toVal
      else if cnv = .canvas then Except.ok cnv.toVal
      else if elt = .videoElt then Except.ok .videoElt
      else if ¬ video.isVideoElt then Except.error JsErr.noInput
      else Except.ok video
  | _ =>
      if ¬ video.isVideoElt then Except.error JsErr.noInput
      else Except.ok video

/-- The shapes of first argument `segment` accepts without falling back to
the constructor video: a callback function, one of the four DOM classes, or
a p5.js wrapper carrying a usable `elt` or `canvas`. -/
def acceptsDirectly (v : JsVal) : Bool :=
  match v with
  | .func | .image | .canvas | .videoElt | .imageData => true
  | .obj elt cnv =>
      elt = .image ∨ elt = .canvas ∨ elt = .imageData ∨
        elt = .videoElt ∨ cnv = .canvas
  | _ => false

/-- JavaScript `a || b` for an optionally present number: a present value
is kept only when truthy; the one falsy rational is 0, which falls back to
the default just like an absent property. -/
def jsOrNum (o : Option ℚ) (d : ℚ) : ℚ :=
  match o with
  | none => d
  | some v => if v = 0 then d else v

/-- The options object a caller hands to the BodyPix constructor; absent
properties are `none`.  The palette is an opaque object of type `P`
(objects are always truthy). -/
structure BPOptions (P : Type) where
  multiplier : Option ℚ
  outputStride : Option ℚ
  segmentationThreshold : Option ℚ
  palette : Option P

/-- The merged configuration held in `this.config`. -/
structure BPConfig (P : Type) where
  multiplier : ℚ
  outputStride : ℚ
  segmentationThreshold : ℚ
  palette : P

/-- The `DEFAULTS` object of the BodyPix module, with the opaque
`BODYPIX_PALETTE` passed in. -/
def DEFAULTS (P : Type) (BODYPIX_PALETTE : P) : BPConfig P :=
  { multiplier := 3 / 4
    outputStride := 16
    segmentationThreshold := 1 / 2
    palette := BODYPIX_PALETTE }

/-- The config merge of the BodyPix constructor: each field is
`options.field || DEFAULTS.field`. -/
def BodyPix.mkConfig (P : Type) (BODYPIX_PALETTE : P)
    (options : BPOptions P) : BPConfig P :=
  { multiplier := jsOrNum options.multiplier (DEFAULTS P BODYPIX_PALETTE).multiplier
    outputStride := jsOrNum options.outputStride (DEFAULTS P BODYPIX_PALETTE).outputStride
    segmentationThreshold :=
      jsOrNum options.segmentationThreshold (DEFAULTS P BODYPIX_PALETTE).segmentationThreshold
    palette := options.palette.getD (DEFAULTS P BODYPIX_PALETTE).palette }

/-- The segmentation options object handed to `segmentInternal`; absent
properties are `none`. -/
structure SegOptions (P : Type) where
  outputStride : Option ℚ
  segmentationThreshold : Option ℚ
  palette : Option P

/-- Passing `this.config` itself as the segmentation options, the default
of `segment` when no options object is supplied. -/
def SegOptions.ofConfig {P : Type} (cfg : BPConfig P) : SegOptions P :=
  { outputStride := some cfg.outputStride
    segmentationThreshold := some cfg.segmentationThreshold
    palette := some cfg.palette }

/-- The externally supplied body-pix library surface `segmentInternal`
touches, over opaque types for segmentations, mask image data and p5
images: `estimatePersonSegmentation(img, outputStride, threshold)`,
`toMaskImageData(segmentation, maskBackground)`, and the p5 conversion
pipeline `rawToBlob` then `blobToP5Image` applied to the mask data with the
segmentation extent. -/
structure BPLib (Seg MaskI P5I : Type) where
  estimatePersonSegmentation : JsVal → ℚ → ℚ → Seg
  toMaskImageData : Seg → Bool → MaskI
  checkP5 : Bool
  p5Image : MaskI → ℚ → ℚ → P5I
  segWidth : Seg → ℚ
  segHeight : Seg → ℚ

/-- A mask of the result object: raw ImageData outside p5, a p5 image when
the p5 pipeline is active. -/
inductive MaskOut (MaskI P5I : Type) where
  | imgData (m : MaskI)
  | p5 (m : P5I)

/-- The result object of `segmentInternal`. -/
structure SegResult (Seg MaskI P5I : Type) where
  maskBackground : MaskOut MaskI P5I
  maskPerson : MaskOut MaskI P5I
  raw : Seg

/-- Mask construction of `segmentInternal`: `toMaskImageData` on the
segmentation, converted to a p5 image when p5 is present. -/
def mkMask {Seg MaskI P5I : Type} (lib : BPLib Seg MaskI P5I) (seg : Seg)
    (background : Bool) : MaskOut MaskI P5I :=
  let m := lib.toMaskImageData seg background
  if lib.checkP5 then .p5 (lib.p5Image m (lib.segWidth seg) (lib.segHeight seg))
  else .imgData m

/-- `BodyPix.segmentInternal`: fold the segmentation options into the
config, run `estimatePersonSegmentation` once with the merged stride and
threshold, and build the result object: both masks from that one
segmentation, which is also returned raw.  Returns the updated config with
the result. -/
def BodyPix.segmentInternal {P Seg MaskI P5I : Type}
    (lib : BPLib Seg MaskI P5I) (cfg : BPConfig P) (opts : SegOptions P)
    (img : JsVal) : BPConfig P × SegResult Seg MaskI P5I :=
  let cfg2 : BPConfig P :=
    { cfg with
        outputStride := jsOrNum opts.outputStride cfg.outputStride
        segmentationThreshold :=
          jsOrNum opts.segmentationThreshold cfg.segmentationThreshold }
  let segmentation :=
    lib.estimatePersonSegmentation img cfg2.outputStride cfg2.segmentationThreshold
  (cfg2,
    { maskBackground := mkMask lib segmentation true
      maskPerson := mkMask lib segmentation false
      raw := segmentation })

/-- Second argument of `BodyPix.segment`: an options object, a callback
function, or anything else (ignored). -/
inductive CfgArg (P : Type) where
  | obj (o : SegOptions P)
  | fn
  | other

/-- Whether a callback ends up supplied to `callCallback` in
`BodyPix.segment`: the first, second, or third argument is a function. -/
def segCbSupplied {P : Type} (optionsOrCallback : JsVal)
    (configOrCallback : CfgArg P) (cb : Bool) : Bool :=
  (optionsOrCallback = JsVal.func : Bool) ||
    (match configOrCallback with | .fn => true | _ => false) || cb

/-- The segmentation options `segment` forwards: the second argument when
it is an object, else `this.config`. -/
def segOptsOf {P : Type} (cfg : BPConfig P) (configOrCallback : CfgArg P) :
    SegOptions P :=
  match configOrCallback with
  | .obj o => o
  | _ => SegOptions.ofConfig cfg

/-- `BodyPix.segment`: sniff the image argument (a thrown sniffing error
rejects the promise before any callback is attached), pick the options and
callback, and route `segmentInternal` through `callCallback`. -/
def BodyPix.segment {P Seg MaskI P5I : Type} (lib : BPLib Seg MaskI P5I)
    (cfg : BPConfig P) (video : JsVal) (optionsOrCallback : JsVal)
    (configOrCallback : CfgArg P) (cb : Bool) :
    Outcome (SegResult Seg MaskI P5I) × Option (Outcome (SegResult Seg MaskI P5I)) :=
  match sniffImage optionsOrCallback video with
  | Except.error e => (Except.error e, none)
  | Except.ok img =>
      callCallback
        (Except.ok (BodyPix.segmentInternal lib cfg (segOptsOf cfg configOrCallback) img).2)
        (segCbSupplied optionsOrCallback configOrCallback cb)

/-! ## NeuralNetwork trainer (src/src/NeuralNetwork, src/unnamed/part_000,
part_001, part_002)

The numeric helpers of `NeuralNetworkData` and `NeuralNetwork` are embedded
directly; the imported tensor runtime is kept opaque, as the glossary
directs, so that delegation claims can be stated against it. -/

/-- The opaque external tensor runtime, per the glossary an "external
library responsible for numeric array representation, automatic
differentiation, and layer execution".  Only the shape of a normalization
entry point is needed to state delegation. -/
structure TensorLib where
  normalize : ℚ → ℚ → ℚ → ℚ

namespace NeuralNetworkData

/-- `NeuralNetworkData.normalizeValue`: `(value - min) / (max - min)`,
plain arithmetic in this module. -/
def normalizeValue (value mn mx : ℚ) : ℚ :=
  (value - mn) / (mx - mn)

/-- `NeuralNetworkData.unNormalizeValue`: `(value * (max - min)) + min`,
plain arithmetic in this module. -/
def unNormalizeValue (value mn mx : ℚ) : ℚ :=
  (value * (mx - mn)) + mn

/-- `NeuralNetworkData.getMin`: `Math.min(...array)`; the empty spread
gives positive infinity, the top of `WithTop`. -/
def getMin (arr : List ℚ) : WithTop ℚ :=
  arr.minimum

/-- `NeuralNetworkData.getMax`: `Math.max(...array)`; the empty spread
gives negative infinity, the bottom of `WithBot`. -/
def getMax (arr : List ℚ) : WithBot ℚ :=
  arr.maximum

/-- Numeric branch of `NeuralNetworkData.normalizeArray`: when every entry
is a number, map `normalizeValue` over the copied array with the min and
max of the options. -/
def normalizeArray (input : List ℚ) (mn mx : ℚ) : List ℚ :=
  input.map fun v => normalizeValue v mn mx

end NeuralNetworkData

namespace NeuralNetwork

/-- `NeuralNetwork.unNormalizeValue` (the copy in the `NeuralNetwork`
class): `(value * (max - min)) + min`. -/
def unNormalizeValue (value mn mx : ℚ) : ℚ :=
  (value * (mx - mn)) + mn

end NeuralNetwork

/-- Modelled from the spec, for comparison with the source definitions: a
normalization that "is handled by the imported tensor library rather than
computed in this code" would return whatever the opaque runtime returns. -/
def normalizeValueDelegated (lib : TensorLib) (value mn mx : ℚ) : ℚ :=
  lib.normalize value mn mx

/-! ## Helper lemmas -/

lemma unNormalize_normalize (value mn mx : ℚ) (h : mn ≠ mx) :
    NeuralNetworkData.unNormalizeValue (NeuralNetworkData.normalizeValue value mn mx) mn mx
      = value := by
  have hne : mx - mn ≠ 0 := sub_ne_zero.mpr (Ne.symm h)
  unfold NeuralNetworkData.normalizeValue NeuralNetworkData.unNormalizeValue
  field_simp

lemma normalize_unNormalize (value mn mx : ℚ) (h : mn ≠ mx) :
    NeuralNetworkData.normalizeValue (NeuralNetworkData.unNormalizeValue value mn mx) mn mx
      = value := by
  have hne : mx - mn ≠ 0 := sub_ne_zero.mpr (Ne.symm h)
  unfold NeuralNetworkData.normalizeValue NeuralNetworkData.unNormalizeValue
  field_simp

/-! ## Theorems -/

/-- C10: for min distinct from max, unNormalizeValue inverts normalizeValue
and normalizeValue inverts unNormalizeValue, over exact rational
arithmetic; the copy of unNormalizeValue in the NeuralNetwork class agrees
with the one in NeuralNetworkData. -/
theorem normalizeValue_unNormalizeValue_inverse (value mn mx : ℚ) (h : mn ≠ mx) :
    NeuralNetworkData.unNormalizeValue (NeuralNetworkData.normalizeValue value mn mx) mn mx
        = value ∧
      NeuralNetworkData.normalizeValue (NeuralNetworkData.unNormalizeValue value mn mx) mn mx
        = value ∧
      NeuralNetwork.unNormalizeValue value mn mx
        = NeuralNetworkData.unNormalizeValue value mn mx :=
  ⟨unNormalize_normalize value mn mx h, normalize_unNormalize value mn mx h, rfl⟩

/-- Witness for C10 at value 5 on the range 0 to 10. -/
theorem normalizeValue_unNormalizeValue_inverse_witness :
    (0 : ℚ) ≠ 10 ∧
      NeuralNetworkData.unNormalizeValue (NeuralNetworkData.normalizeValue 5 0 10) 0 10 = 5 ∧
      NeuralNetworkData.normalizeValue (NeuralNetworkData.unNormalizeValue 5 0 10) 0 10 = 5 ∧
      NeuralNetwork.unNormalizeValue 5 0 10 = NeuralNetworkData.unNormalizeValue 5 0 10 :=
  ⟨by norm_num, normalizeValue_unNormalizeValue_inverse 5 0 10 (by norm_num)⟩

/-- C5 counterexample: normalizeValue is not delegated to the tensor
runtime; its value at (5, 0, 10) is fixed at 1/2 by local arithmetic, so no
uniform agreement with an opaque runtime normalization is possible. -/
theorem normalizeValue_not_delegated :
    ¬ ∀ (lib : TensorLib) (value mn mx : ℚ),
        NeuralNetworkData.normalizeValue value mn mx
          = normalizeValueDelegated lib value mn mx := by
  intro h
  have h0 := h ⟨fun _ _ _ => 0⟩ 5 0 10
  rw [normalizeValueDelegated] at h0
  norm_num [NeuralNetworkData.normalizeValue] at h0

/-- C5 amended: normalization and min/max statistics are numeric work done
locally in this code, and done correctly: normalizeValue maps the range
onto the unit interval and is inverted by unNormalizeValue, getMin and
getMax bound every member of the array, and normalizeArray applies the
local normalizeValue elementwise. -/
theorem trainer_local_numeric_work (value mn mx x : ℚ) (l : List ℚ)
    (hlt : mn < mx) (h1 : mn ≤ value) (h2 : value ≤ mx) (hx : x ∈ l) :
    0 ≤ NeuralNetworkData.normalizeValue value mn mx ∧
      NeuralNetworkData.normalizeValue value mn mx ≤ 1 ∧
      NeuralNetworkData.unNormalizeValue (NeuralNetworkData.normalizeValue value mn mx) mn mx
        = value ∧
      NeuralNetworkData.getMin l ≤ (x : WithTop ℚ) ∧
      (x : WithBot ℚ) ≤ NeuralNetworkData.getMax l ∧
      NeuralNetworkData.normalizeArray l mn mx
        = l.map (fun v => NeuralNetworkData.normalizeValue v mn mx) := by
  have hpos : (0 : ℚ) < mx - mn := by linarith
  refine ⟨?_, ?_, unNormalize_normalize value mn mx (ne_of_lt hlt), ?_, ?_, rfl⟩
  · exact div_nonneg (by linarith) (le_of_lt hpos)
  · rw [NeuralNetworkData.normalizeValue, div_le_one hpos]
    linarith
  · exact List.minimum_le_of_mem' hx
  · exact List.le_maximum_of_mem' hx

/-- Witness for the amended C5 theorem at value 5 on the range 0 to 10 and
the array [3, 1, 2]. -/
theorem trainer_local_numeric_work_witness :
    0 ≤ NeuralNetworkData.normalizeValue 5 0 10 ∧
      NeuralNetworkData.normalizeValue 5 0 10 ≤ 1 ∧
      NeuralNetworkData.unNormalizeValue (NeuralNetworkData.normalizeValue 5 0 10) 0 10 = 5 ∧
      NeuralNetworkData.getMin [3, 1, 2] ≤ ((1 : ℚ) : WithTop ℚ) ∧
      ((1 : ℚ) : WithBot ℚ) ≤ NeuralNetworkData.getMax [3, 1, 2] ∧
      NeuralNetworkData.normalizeArray [3, 1, 2] 0 10
        = List.map (fun v => NeuralNetworkData.normalizeValue v 0 10) [3, 1, 2] :=
  trainer_local_numeric_work 5 0 10 1 [3, 1, 2] (by norm_num) (by norm_num) (by norm_num)
    (by norm_num)

/-- C6 counterexample: a segmentationThreshold of 0 is present in the
options object, yet the merged configuration keeps the default 1/2, because
the merge uses JavaScript disjunction and 0 is falsy. -/
theorem mkConfig_zero_threshold_counterexample :
    (BodyPix.mkConfig ℕ 7 ⟨none, none, some 0, none⟩).segmentationThreshold = 1 / 2 ∧
      (1 / 2 : ℚ) ≠ 0 := by
  constructor
  · simp [BodyPix.mkConfig, jsOrNum, DEFAULTS]
  · norm_num

/-- C6 amended: the configuration is the defaults (multiplier 3/4,
outputStride 16, segmentationThreshold 1/2, default palette) overridden
field by field by the truthy values present in the options object; absent
fields and present but falsy (zero) numeric fields keep their defaults. -/
theorem mkConfig_merges_defaults (P : Type) (pal : P) (o : BPOptions P) :
    (o.multiplier = none → (BodyPix.mkConfig P pal o).multiplier = 3 / 4) ∧
      (∀ v : ℚ, o.multiplier = some v → v ≠ 0 → (BodyPix.mkConfig P pal o).multiplier = v) ∧
      (o.multiplier = some 0 → (BodyPix.mkConfig P pal o).multiplier = 3 / 4) ∧
      (o.outputStride = none → (BodyPix.mkConfig P pal o).outputStride = 16) ∧
      (∀ v : ℚ, o.outputStride = some v → v ≠ 0 → (BodyPix.mkConfig P pal o).outputStride = v) ∧
      (o.outputStride = some 0 → (BodyPix.mkConfig P pal o).outputStride = 16) ∧
      (o.segmentationThreshold = none →
        (BodyPix.mkConfig P pal o).segmentationThreshold = 1 / 2) ∧
      (∀ v : ℚ, o.segmentationThreshold = some v → v ≠ 0 →
        (BodyPix.mkConfig P pal o).segmentationThreshold = v) ∧
      (o.segmentationThreshold = some 0 →
        (BodyPix.mkConfig P pal o).segmentationThreshold = 1 / 2) ∧
      (o.palette = none → (BodyPix.mkConfig P pal o).palette = pal) ∧
      (∀ p : P, o.palette = some p → (BodyPix.mkConfig P pal o).palette = p) := by
  refine ⟨fun h => ?_, fun v hv hv0 => ?_, fun h => ?_, fun h => ?_, fun v hv hv0 => ?_,
    fun h => ?_, fun h => ?_, fun v hv hv0 => ?_, fun h => ?_, fun h => ?_, fun p hp => ?_⟩ <;>
    simp_all [BodyPix.mkConfig, jsOrNum, DEFAULTS]

/-- Witness for the amended C6 theorem: multiplier 2 present and truthy,
outputStride absent, segmentationThreshold present but 0, palette 9. -/
theorem mkConfig_merges_defaults_witness :
    (BodyPix.mkConfig ℕ 7 ⟨some 2, none, some 0, some 9⟩).multiplier = 2 ∧
      (BodyPix.mkConfig ℕ 7 ⟨some 2, none, some 0, some 9⟩).outputStride = 16 ∧
      (BodyPix.mkConfig ℕ 7 ⟨some 2, none, some 0, some 9⟩).segmentationThreshold = 1 / 2 ∧
      (BodyPix.mkConfig ℕ 7 ⟨some 2, none, some 0, some 9⟩).palette = 9 := by
  have h := mkConfig_merges_defaults ℕ 7 ⟨some 2, none, some 0, some 9⟩
  exact ⟨h.2.1 2 rfl (by norm_num), h.2.2.2.1 rfl, h.2.2.2.2.2.2.2.2.1 rfl,
    h.2.2.2.2.2.2.2.2.2.2 9 rfl⟩

/-- C4 counterexample: a null first argument with no constructor video.
Null is none of the accepted input shapes, so the claim requires the
"No input image provided" error, but the cascade reaches the property read
`optionsOrCallback.elt` (because typeof null is the string "object") and a
TypeError is raised instead. -/
theorem sniffImage_null_counterexample :
    ¬ (sniffImage JsVal.jsNull JsVal.undefined = Except.error JsErr.noInput ↔
        acceptsDirectly JsVal.jsNull = false ∧ JsVal.undefined.isVideoElt = false) := by
  simp [sniffImage, acceptsDirectly, JsVal.isVideoElt]

/-- C4 amended: for a non-null first argument, segment normalizes it to an
image source exactly as claimed: the four DOM classes are used directly, a
p5.js wrapper contributes its elt or canvas element, a function falls back
to the constructor video, and the "No input image provided" error is thrown
exactly when the argument is none of these and the constructor holds no
HTMLVideoElement.  A null first argument instead raises a TypeError from
the property read null.elt. -/
theorem sniffImage_normalizes_input (arg video : JsVal) (hn : arg ≠ JsVal.jsNull) :
    (arg = JsVal.image → sniffImage arg video = Except.ok JsVal.image) ∧
      (arg = JsVal.canvas → sniffImage arg video = Except.ok JsVal.canvas) ∧
      (arg = JsVal.videoElt → sniffImage arg video = Except.ok JsVal.videoElt) ∧
      (arg = JsVal.imageData → sniffImage arg video = Except.ok JsVal.imageData) ∧
      (arg = JsVal.func → sniffImage arg video = Except.ok video) ∧
      (∀ e c : JsProp, arg = JsVal.obj e c → acceptsDirectly arg = true →
        sniffImage arg video = Except.ok e.toVal ∨
          sniffImage arg video = Except.ok c.toVal) ∧
      (sniffImage arg video = Except.error JsErr.noInput ↔
        acceptsDirectly arg = false ∧ video.isVideoElt = false) := by
  refine ⟨fun h => by subst h; rfl, fun h => by subst h; rfl, fun h => by subst h; rfl,
    fun h => by subst h; rfl, fun h => by subst h; rfl, ?_, ?_⟩
  · rintro e c rfl hacc
    cases e <;> cases c <;>
      simp_all [sniffImage, acceptsDirectly, JsProp.toVal]
  · cases arg with
    | jsNull => exact absurd rfl hn
    | obj e c =>
        cases e <;> cases c <;> cases video <;>
          simp [sniffImage, acceptsDirectly, JsVal.isVideoElt, JsProp.toVal]
    | _ =>
        cases video <;> simp [sniffImage, acceptsDirectly, JsVal.isVideoElt]

/-- Witness for the amended C4 theorem: a numeric first argument with no
constructor video falls into the error branch of the characterization. -/
theorem sniffImage_normalizes_input_witness :
    sniffImage (JsVal.num 5) JsVal.undefined = Except.error JsErr.noInput ↔
      acceptsDirectly (JsVal.num 5) = false ∧ JsVal.undefined.isVideoElt = false :=
  (sniffImage_normalizes_input (JsVal.num 5) JsVal.undefined (by simp)).2.2.2.2.2.2

/-! ## Label-map lemmas for the KNN classifier -/

lemma addLabel_of_mem {m : List String} {l : String} (h : l ∈ m) :
    addLabel m l = (m, m.indexOf l) := by
  simp [addLabel, h]

lemma mem_addLabel_fst {m : List String} {a x : String} :
    x ∈ (addLabel m a).1 ↔ x ∈ m ∨ x = a := by
  by_cases h : a ∈ m <;> simp [addLabel, h]
  aesop

lemma addLabels_cons (m : List String) (a : String) (ls : List String) :
    addLabels m (a :: ls) = addLabels (addLabel m a).1 ls := rfl

lemma mem_addLabels {m : List String} {ls : List String} {x : String} :
    x ∈ addLabels m ls ↔ x ∈ m ∨ x ∈ ls := by
  induction ls generalizing m with
  | nil => simp [addLabels]
  | cons a ls ih =>
      rw [addLabels_cons, ih, mem_addLabel_fst]
      aesop

lemma addLabels_eq_append (m : List String) (ls : List String) :
    ∃ t, addLabels m ls = m ++ t := by
  induction ls generalizing m with
  | nil => exact ⟨[], by simp [addLabels]⟩
  | cons a ls ih =>
      rw [addLabels_cons]
      by_cases h : a ∈ m
      · simpa [addLabel, h] using ih m
      · obtain ⟨t, ht⟩ := ih (m ++ [a])
        exact ⟨[a] ++ t, by simp [addLabel, h, ht]⟩

lemma nodup_addLabels {m : List String} (hm : m.Nodup) (ls : List String) :
    (addLabels m ls).Nodup := by
  induction ls generalizing m with
  | nil => exact hm
  | cons a ls ih =>
      rw [addLabels_cons]
      by_cases h : a ∈ m
      · simpa [addLabel, h] using ih hm
      · refine ih ?_
        simp [addLabel, h, List.nodup_append, hm]

lemma indexOf_addLabels_of_mem {m : List String} {x : String} (h : x ∈ m)
    (ls : List String) : (addLabels m ls).indexOf x = m.indexOf x := by
  obtain ⟨t, ht⟩ := addLabels_eq_append m ls
  rw [ht, List.indexOf_append_of_mem h]

lemma buildMap_first_appearance (p : List String) (l : String)
    (s : List String) (hl : l ∉ p) :
    (buildMap (p ++ l :: s)).indexOf l = (buildMap p).length := by
  have h1 : buildMap (p ++ l :: s) = addLabels (addLabel (buildMap p) l).1 s := by
    unfold buildMap addLabels
    rw [List.foldl_append]
    rfl
  have hlb : l ∉ buildMap p := by
    intro hmem
    rcases mem_addLabels.1 hmem with h | h
    · simp at h
    · exact hl h
  have h2 : (addLabel (buildMap p) l).1 = buildMap p ++ [l] := by
    simp [addLabel, hlb]
  have h3 : l ∈ buildMap p ++ [l] := by simp
  rw [h1, h2, indexOf_addLabels_of_mem h3, List.indexOf_append_of_not_mem hlb]
  simp

lemma addExamples_mapStringToIndex (st : KNNState) (items : List (Vec × String)) :
    (st.addExamples items).mapStringToIndex
      = addLabels st.mapStringToIndex (items.map Prod.snd) := by
  induction items generalizing st with
  | nil => rfl
  | cons a items ih =>
      rw [KNNState.addExamples, List.foldl_cons]
      show (KNNState.addExamples _ items).mapStringToIndex = _
      rw [ih, List.map_cons, addLabels_cons]
      rfl

/-- C9: after any sequence of addExample calls with string labels starting
from a fresh classifier, the label map holds each distinct label exactly
once, the index of a label is the number of distinct labels first appearing
before it, adding an already-seen label reuses its index and leaves the map
unchanged, and clearAllLabels resets the map to empty. -/
theorem addExample_label_map_invariant (items : List (Vec × String)) :
    ((KNNState.init.addExamples items).mapStringToIndex
        = buildMap (items.map Prod.snd)) ∧
      (buildMap (items.map Prod.snd)).Nodup ∧
      (∀ l, l ∈ buildMap (items.map Prod.snd) ↔ l ∈ items.map Prod.snd) ∧
      (∀ l, l ∈ items.map Prod.snd → (buildMap (items.map Prod.snd)).count l = 1) ∧
      (∀ p l s, items.map Prod.snd = p ++ l :: s → l ∉ p →
        (buildMap (items.map Prod.snd)).indexOf l = (buildMap p).length) ∧
      (∀ (m : List String) (l : String), l ∈ m → addLabel m l = (m, m.indexOf l)) ∧
      (∀ st : KNNState, st.clearAllLabels.mapStringToIndex = []) := by
  have hmem : ∀ l, l ∈ buildMap (items.map Prod.snd) ↔ l ∈ items.map Prod.snd := by
    intro l
    rw [buildMap, mem_addLabels]
    simp
  have hnd : (buildMap (items.map Prod.snd)).Nodup :=
    nodup_addLabels List.nodup_nil _
  refine ⟨addExamples_mapStringToIndex KNNState.init items, hnd, hmem, ?_, ?_, ?_, ?_⟩
  · intro l hl
    exact List.count_eq_one_of_mem hnd ((hmem l).2 hl)
  · intro p l s heq hl
    rw [heq]
    exact buildMap_first_appearance p l s hl
  · intro m l hl
    exact addLabel_of_mem hl
  · intro st
    rfl

/-- Witness for C9 with the label sequence a, b, a. -/
theorem addExample_label_map_invariant_witness :
    ((KNNState.init.addExamples [([1], "a"), ([2], "b"), ([3], "a")]).mapStringToIndex
        = buildMap ["a", "b", "a"]) ∧
      (buildMap ["a", "b", "a"]).indexOf "b" = (buildMap ["a"]).length ∧
      (buildMap ["a", "b", "a"]).count "a" = 1 ∧
      addLabel ["a", "b"] "a" = (["a", "b"], ["a", "b"].indexOf "a") := by
  have h := addExample_label_map_invariant [([1], "a"), ([2], "b"), ([3], "a")]
  exact ⟨h.1, h.2.2.2.2.1 ["a"] "b" ["a"] rfl (by simp),
    h.2.2.2.1 "a" (by simp), h.2.2.2.2.2.1 ["a", "b"] "a" (by simp)⟩

/-- C8: classify rejects with the error “There is no example in any class”
exactly when no class holds a stored example at the time of the call, it
resolves otherwise, and the call leaves the stored examples and the
label-to-index map unchanged. -/
theorem classify_no_example_error (st : KNNState) (input : Vec) (karg : KArg)
    (cb : Bool) :
    ((st.classify input karg cb).2.1 = Except.error JsErr.noExample ↔
        st.numClasses = 0) ∧
      (st.numClasses ≠ 0 → ∃ r, (st.classify input karg cb).2.1 = Except.ok r) ∧
      (st.classify input karg cb).1 = st ∧
      JsErr.message JsErr.noExample = "There is no example in any class" := by
  refine ⟨?_, ?_, rfl, rfl⟩
  · rw [KNNState.classify]
    by_cases h : st.numClasses = 0 <;>
      simp [KNNState.classifyInternal, callCallback, h, Nat.le_zero]
  · intro h
    rw [KNNState.classify]
    simp [KNNState.classifyInternal, callCallback, Nat.le_zero, h]

/-- Witness for C8 on a fresh classifier and on a one-example classifier. -/
theorem classify_no_example_error_witness :
    ((KNNState.init.classify [1] KArg.nothing false).2.1
        = Except.error JsErr.noExample ↔ KNNState.init.numClasses = 0) ∧
      ((⟨[([2], 0)], ["a"]⟩ : KNNState).numClasses ≠ 0 →
        ∃ r, ((⟨[([2], 0)], ["a"]⟩ : KNNState).classify [1] KArg.nothing false).2.1
          = Except.ok r) := by
  constructor
  · exact (classify_no_example_error KNNState.init [1] KArg.nothing false).1
  · exact (classify_no_example_error ⟨[([2], 0)], ["a"]⟩ [1] KArg.nothing false).2.1

/-- C2: classify returns the class chosen by majority vote among the k
closest stored examples, with k the number passed by the caller, and k
equal to 3 when the second argument is a callback or absent. -/
theorem classify_majority_vote (st : KNNState) (input : Vec) (n : ℕ)
    (cb : Bool) (h : st.numClasses ≠ 0) :
    (∃ r, (st.classify input (KArg.num n) cb).2.1 = Except.ok r ∧
        r.classIndex = majorityVote ((kNearest n st.examples input).map Prod.snd)) ∧
      (∃ r, (st.classify input KArg.nothing cb).2.1 = Except.ok r ∧
        r.classIndex = majorityVote ((kNearest 3 st.examples input).map Prod.snd)) ∧
      (∃ r, (st.classify input KArg.fn cb).2.1 = Except.ok r ∧
        r.classIndex = majorityVote ((kNearest 3 st.examples input).map Prod.snd)) := by
  refine ⟨?_, ?_, ?_⟩ <;>
    simp [KNNState.classify, KNNState.classifyInternal, callCallback, Nat.le_zero, h,
      predictClass, KArg.kOf]

/-- Witness for C2 on a two-example classifier with a query nearest the
second example. -/
theorem classify_majority_vote_witness :
    (⟨[([0], 0), ([10], 1)], ["a", "b"]⟩ : KNNState).numClasses ≠ 0 ∧
      ∃ r, ((⟨[([0], 0), ([10], 1)], ["a", "b"]⟩ : KNNState).classify [9]
          (KArg.num 1) false).2.1 = Except.ok r ∧
        r.classIndex
          = majorityVote ((kNearest 1 [([0], 0), ([10], 1)] [9]).map Prod.snd) := by
  refine ⟨by decide, ?_⟩
  exact (classify_majority_vote ⟨[([0], 0), ([10], 1)], ["a", "b"]⟩ [9] 1 false
    (by decide)).1

/-- C3: detect resolves to a list of the same length and order as the raw
predictions, with label the class, confidence the score, and x, y, w, h the
bbox entries divided by the subject width (x, w) and height (y, h). -/
theorem detect_formats_predictions (predictions : List Prediction)
    (subject : Subject) (cb : Bool) :
    ∃ out, (CocoSsd.detect predictions subject cb).1 = Except.ok out ∧
      out.length = predictions.length ∧
      ∀ i (hi : i < out.length) (hp : i < predictions.length),
        (out.get ⟨i, hi⟩).label = (predictions.get ⟨i, hp⟩).cls ∧
        (out.get ⟨i, hi⟩).confidence = (predictions.get ⟨i, hp⟩).score ∧
        (out.get ⟨i, hi⟩).x = (predictions.get ⟨i, hp⟩).bbox0 / subject.width ∧
        (out.get ⟨i, hi⟩).y = (predictions.get ⟨i, hp⟩).bbox1 / subject.height ∧
        (out.get ⟨i, hi⟩).w = (predictions.get ⟨i, hp⟩).bbox2 / subject.width ∧
        (out.get ⟨i, hi⟩).h = (predictions.get ⟨i, hp⟩).bbox3 / subject.height := by
  refine ⟨formatPredictions predictions subject, rfl, by simp [formatPredictions], ?_⟩
  intro i hi hp
  simp [formatPredictions]

/-- Witness for C3 on one concrete prediction over a 100 by 200 subject. -/
theorem detect_formats_predictions_witness :
    ∃ out, (CocoSsd.detect [⟨"cat", 9 / 10, 10, 20, 30, 40⟩] ⟨100, 200⟩ true).1
        = Except.ok out ∧
      out.length = 1 ∧
      ∀ hi : 0 < out.length,
        (out.get ⟨0, hi⟩).label = "cat" ∧ (out.get ⟨0, hi⟩).x = 10 / 100 := by
  obtain ⟨out, h1, h2, h3⟩ :=
    detect_formats_predictions [⟨"cat", 9 / 10, 10, 20, 30, 40⟩] ⟨100, 200⟩ true
  refine ⟨out, h1, h2, fun hi => ?_⟩
  obtain ⟨ha, hb, hc, hrest⟩ := h3 0 hi (by simp)
  exact ⟨ha, hc⟩

/-- C7: segmentInternal builds its result from a single call to the
segmentation model: the raw field is that per-pixel segmentation, and the
maskBackground and maskPerson images are both derived from exactly that
same raw segmentation. -/
theorem segmentInternal_result_shape (P Seg MaskI P5I : Type)
    (lib : BPLib Seg MaskI P5I) (cfg : BPConfig P) (opts : SegOptions P)
    (img : JsVal) :
    ∃ seg,
      seg = lib.estimatePersonSegmentation img
          (jsOrNum opts.outputStride cfg.outputStride)
          (jsOrNum opts.segmentationThreshold cfg.segmentationThreshold) ∧
      (BodyPix.segmentInternal lib cfg opts img).2.raw = seg ∧
      (BodyPix.segmentInternal lib cfg opts img).2.maskBackground
        = mkMask lib seg true ∧
      (BodyPix.segmentInternal lib cfg opts img).2.maskPerson
        = mkMask lib seg false :=
  ⟨_, rfl, rfl, rfl, rfl⟩

/-- C1 counterexample: a BodyPix segment call with a supplied callback (the
second argument is a function) and an unusable first argument on an
instance with no constructor video: the promise rejects with the
"No input image provided" error, but the callback is never invoked, so no
callback delivery equals the promise outcome. -/
theorem segment_error_skips_callback_counterexample :
    segCbSupplied (P := ℕ) (JsVal.num 5) CfgArg.fn false = true ∧
      (BodyPix.segment (P := ℕ)
          (⟨fun _ _ _ => (), fun _ _ => (), false, fun _ _ _ => (), fun _ => 0, fun _ => 0⟩ :
            BPLib Unit Unit Unit)
          ⟨3 / 4, 16, 1 / 2, 0⟩ JsVal.undefined (JsVal.num 5) CfgArg.fn false).2 = none ∧
      (BodyPix.segment (P := ℕ)
          (⟨fun _ _ _ => (), fun _ _ => (), false, fun _ _ _ => (), fun _ => 0, fun _ => 0⟩ :
            BPLib Unit Unit Unit)
          ⟨3 / 4, 16, 1 / 2, 0⟩ JsVal.undefined (JsVal.num 5) CfgArg.fn false).1
        = Except.error JsErr.noInput := by
  refine ⟨rfl, ?_, ?_⟩ <;> rfl

/-- C1 amended: for KNN classify and CocoSsd detect always, and for BodyPix
segment whenever the image argument sniffing succeeds, a supplied callback
is invoked with exactly the outcome the returned promise carries, and no
callback is invoked when none is supplied; when segment input sniffing
throws, the promise rejects with that error and a supplied callback is not
invoked. -/
theorem callback_promise_agreement (st : KNNState) (input : Vec)
    (karg : KArg) (cb : Bool) (predictions : List Prediction)
    (subject : Subject) (P Seg MaskI P5I : Type) (lib : BPLib Seg MaskI P5I)
    (cfg : BPConfig P) (video arg1 : JsVal) (carg : CfgArg P) (img : JsVal)
    (e : JsErr) :
    ((st.classify input karg cb).2.2
        = if karg.cbOf cb then some (st.classify input karg cb).2.1 else none) ∧
      ((CocoSsd.detect predictions subject cb).2
        = if cb then some (CocoSsd.detect predictions subject cb).1 else none) ∧
      (sniffImage arg1 video = Except.ok img →
        (BodyPix.segment lib cfg video arg1 carg cb).2
          = if segCbSupplied arg1 carg cb then
              some (BodyPix.segment lib cfg video arg1 carg cb).1
            else none) ∧
      (sniffImage arg1 video = Except.error e →
        (BodyPix.segment lib cfg video arg1 carg cb).2 = none ∧
          (BodyPix.segment lib cfg video arg1 carg cb).1 = Except.error e) := by
  refine ⟨rfl, rfl, fun h => ?_, fun h => ?_⟩
  · rw [BodyPix.segment, h]
    rfl
  · rw [BodyPix.segment, h]
    exact ⟨rfl, rfl⟩

/-- Witness for the amended C1 theorem at concrete inputs: a classify call
with a callback, a detect call without one, and a segment call on an image
element with a callback in the third position. -/
theorem callback_promise_agreement_witness :
    ((KNNState.init.classify [1] KArg.fn false).2.2
        = some (KNNState.init.classify [1] KArg.fn false).2.1) ∧
      ((CocoSsd.detect [] ⟨100, 200⟩ false).2 = none) ∧
      ((BodyPix.segment (P := ℕ)
          (⟨fun _ _ _ => (), fun _ _ => (), false, fun _ _ _ => (), fun _ => 0, fun _ => 0⟩ :
            BPLib Unit Unit Unit)
          ⟨3 / 4, 16, 1 / 2, 0⟩ JsVal.undefined JsVal.image CfgArg.other true).2
        = some (BodyPix.segment (P := ℕ)
            (⟨fun _ _ _ => (), fun _ _ => (), false, fun _ _ _ => (), fun _ => 0, fun _ => 0⟩ :
              BPLib Unit Unit Unit)
            ⟨3 / 4, 16, 1 / 2, 0⟩ JsVal.undefined JsVal.image CfgArg.other true).1) := by
  have ha := callback_promise_agreement KNNState.init [1] KArg.fn false [] ⟨100, 200⟩
    ℕ Unit Unit Unit
    ⟨fun _ _ _ => (), fun _ _ => (), false, fun _ _ _ => (), fun _ => 0, fun _ => 0⟩
    ⟨3 / 4, 16, 1 / 2, 0⟩ JsVal.undefined JsVal.image CfgArg.other JsVal.image JsErr.noInput
  have hb := callback_promise_agreement KNNState.init [1] KArg.fn true [] ⟨100, 200⟩
    ℕ Unit Unit Unit
    ⟨fun _ _ _ => (), fun _ _ => (), false, fun _ _ _ => (), fun _ => 0, fun _ => 0⟩
    ⟨3 / 4, 16, 1 / 2, 0⟩ JsVal.undefined JsVal.image CfgArg.other JsVal.image JsErr.noInput
  exact ⟨ha.1, ha.2.1, hb.2.2.1 rfl⟩

end Ml5
